import Mathlib

/-!
Shallow embedding of `src/servers/simple.cc` (tensorrt-inference-server
example client) and proofs about its allocator callbacks, completion
callback, readiness loops and the exit-code behaviour of `main`.
-/

namespace Simple

/-- Modelled from the spec: the memory locality enumeration
(`TRTSERVER_Memory_Type`, declared in `src/core/trtserver.h`, which is not
under `src/`).  The spec requires at minimum host (CPU) memory, extended
with device memory; `simple.cc` only ever compares a locality against
`TRTSERVER_MEMORY_CPU`. -/
inductive MemoryType where
  | CPU
  | GPU
deriving DecidableEq

/-- Result of one call to `ResponseAlloc` (`simple.cc` lines 56-81).
`buffer = some n` records that `malloc n` was performed and its pointer
stored in `*buffer`; `buffer = none` records `*buffer = nullptr` with no
allocation.  `token` is the value stored in `*buffer_userp`
(`some s` models `new std::string(s)`, `none` models `nullptr`).
`err` is the returned `TRTSERVER_Error*` (`none` = success). -/
structure AllocResult where
  buffer : Option Nat
  token : Option String
  err : Option String
deriving DecidableEq

/-- `ResponseAlloc` from `simple.cc` lines 56-81: if `byte_size == 0` or the
memory type is CPU, set the buffer (`nullptr` when `byte_size == 0`, else
`malloc(byte_size)`) and a fresh token holding the tensor name; otherwise
null buffer and null token.  Always returns success. -/
def ResponseAlloc (tensor_name : String) (byte_size : Nat)
    (memory_type : MemoryType) : AllocResult :=
  if byte_size = 0 ∨ memory_type = MemoryType.CPU then
    { buffer := if byte_size = 0 then none else some byte_size
      token := some tensor_name
      err := none }
  else
    { buffer := none, token := none, err := none }

/-- Result of one call to `ResponseRelease` (`simple.cc` lines 83-102).
`logged_name` is the name printed in the release diagnostic, `freed`
records the unconditional `free(buffer)`, `err` the returned error. -/
structure ReleaseResult where
  logged_name : String
  freed : Bool
  err : Option String
deriving DecidableEq

/-- `ResponseRelease` from `simple.cc` lines 83-102: when the token
(`buffer_userp`) is null a placeholder string is substituted; the buffer is
freed unconditionally and success is returned. -/
def ResponseRelease (buffer : Option Nat) (token : Option String)
    (byte_size : Nat) (memory_type : MemoryType) : ReleaseResult :=
  let name := match token with
    | some n => n
    | none => "<unknown>"
  { logged_name := name, freed := true, err := none }

/-! ### The completion callback and the promise it owns

`InferComplete` (`simple.cc` lines 104-113) and the uses of the promise in
`main` (lines 305-306: allocation and `get_future`; line 312: passed as the
callback cookie; line 322: `completed.get()`). We record the operations each
piece of code performs on the promise allocation and run them through a
lifetime state machine. -/

/-- An operation on the promise allocation / its future. -/
inductive PromiseOp where
  | create
  | getFuture
  | setValue
  | free
  | wait
deriving DecidableEq

/-- The operations `InferComplete` performs on the promise it receives
through `userp` (`simple.cc` lines 109-112): `p->set_value(response)` then
`delete p`. -/
def inferCompleteOps : List PromiseOp :=
  [PromiseOp.setValue, PromiseOp.free]

/-- The operations `main` performs on the promise outside the callback:
`new std::promise` and `get_future` before submission (lines 305-306), and
`completed.get()` after (line 322).  `main` never deletes the promise. -/
def mainPromiseOps : List PromiseOp :=
  [PromiseOp.create, PromiseOp.getFuture, PromiseOp.wait]

/-- State of the promise allocation and its shared state. -/
structure PromiseState where
  allocated : Bool
  resolved : Bool
deriving DecidableEq

/-- One step of the promise lifetime state machine.  `none` marks an
invalid use: creating twice, reading the future before creation, resolving
a dead or already-resolved promise, freeing unallocated memory (double
free), or waiting on an unresolved future (the caller would block; in this
linearization the value is already set).  `free` keeps the shared state, so
a later `wait` still succeeds, as with `std::future`. -/
def promiseStep (s : PromiseState) (op : PromiseOp) : Option PromiseState :=
  match op with
  | PromiseOp.create =>
      if s.allocated then none
      else some { s with allocated := true }
  | PromiseOp.getFuture =>
      if s.allocated then some s else none
  | PromiseOp.setValue =>
      if s.allocated ∧ ¬ s.resolved then some { s with resolved := true }
      else none
  | PromiseOp.free =>
      if s.allocated then some { s with allocated := false } else none
  | PromiseOp.wait =>
      if s.resolved then some s else none

/-- Run a list of promise operations from a given state. -/
def runPromise : PromiseState → List PromiseOp → Option PromiseState
  | s, [] => some s
  | s, op :: ops =>
      match promiseStep s op with
      | none => none
      | some s2 => runPromise s2 ops

/-- The linearization realized by the program: `main`'s pre-submission
operations, then the callback body (which happens-before `completed.get()`
resolves), then `main`'s wait. -/
def programPromiseTrace : List PromiseOp :=
  [PromiseOp.create, PromiseOp.getFuture] ++ inferCompleteOps ++
    [PromiseOp.wait]

/-! ### The server health loop (`simple.cc` lines 156-176)

Each iteration queries liveness then readiness (each can fail with an
engine error, which is fatal via `FAIL_IF_ERR`), breaks when both are true,
and otherwise increments `health_iters`; when the incremented counter
reaches 10 the loop fails with `FAIL("failed to find healthy inference
server")`.  The two queries of iteration `i` are modelled by oracle streams
`live i` and `ready i`. -/

/-- The two health queries of one loop iteration (`simple.cc` lines
159-166): liveness first, then readiness, each fatal on an engine error;
on success the iteration observes `live && ready`. -/
def healthPoll (live ready : Nat → Except String Bool) (i : Nat) :
    Except String Bool :=
  match live i with
  | Except.error e => Except.error ("unable to get server liveness: " ++ e)
  | Except.ok l =>
      match ready i with
      | Except.error e =>
          Except.error ("unable to get server readiness: " ++ e)
      | Except.ok r => Except.ok (l && r)

/-- One run of the health loop body starting at iteration `i` with `fuel`
more sleeps allowed before the 10-attempt bound fires (the loop starts
with `i = 0`, `fuel = 9`: the tenth unhealthy poll is fatal). -/
def healthLoopGo (live ready : Nat → Except String Bool) :
    Nat → Nat → Except String Unit
  | 0, i =>
      match healthPoll live ready i with
      | Except.error e => Except.error e
      | Except.ok true => Except.ok ()
      | Except.ok false =>
          Except.error "failed to find healthy inference server"
  | fuel + 1, i =>
      match healthPoll live ready i with
      | Except.error e => Except.error e
      | Except.ok true => Except.ok ()
      | Except.ok false => healthLoopGo live ready fuel (i + 1)

/-- The health loop of `main`: `health_iters` starts at 0 and the loop
fails once `++health_iters >= 10`, i.e. on the tenth unhealthy poll. -/
def healthLoopRun (live ready : Nat → Except String Bool) :
    Except String Unit :=
  healthLoopGo live ready 9 0

/-! ### The model readiness loop (`simple.cc` lines 204-243)

The loop body obtains the model status protobuf, serializes it, parses it,
looks up model "simple" then version 1, breaks when the ready state is
`MODEL_READY`, and otherwise deletes the protobuf and sleeps 500ms before
retrying.  There is no iteration bound.  Note the order of lines 234-240:
the `break` on `MODEL_READY` happens before the `TRTSERVER_ProtobufDelete`,
so the protobuf of the final iteration is never deleted. -/

/-- Modelled from the spec: the model ready-state enumeration
(`ModelReadyState` from `src/core/server_status.proto`, not under `src/`);
the spec lists unavailable/loading/ready/unloading.  `simple.cc` only
compares a state against `MODEL_READY`. -/
inductive ModelReadyState where
  | MODEL_UNAVAILABLE
  | MODEL_LOADING
  | MODEL_READY
  | MODEL_UNLOADING
deriving DecidableEq

/-- Per-version status inside a model status message. -/
structure VersionStatus where
  ready_state : ModelReadyState
deriving DecidableEq

/-- Status of one model: version number to version status. -/
structure ModelVersionTable where
  version_status : List (Int × VersionStatus)
deriving DecidableEq

/-- The parsed `ServerStatus` message used by the model readiness loop:
model name to per-model status. -/
structure ServerStatusMsg where
  model_status : List (String × ModelVersionTable)
deriving DecidableEq

/-- Outcome of the engine calls made by one iteration of the model
readiness loop: `TRTSERVER_ServerModelStatus`, `TRTSERVER_ProtobufSerialize`,
`ParseFromArray` (`none` = parse failure) and `TRTSERVER_ProtobufDelete`. -/
structure ModelStatusIter where
  get : Except String Unit
  serialize : Except String Unit
  parse : Option ServerStatusMsg
  delete : Except String Unit

deriving instance DecidableEq for Except

/-- Result of the model readiness loop when it terminates: its control-flow
outcome together with how many model-status protobufs were acquired
(`TRTSERVER_ServerModelStatus` succeeded) and how many were released
(`TRTSERVER_ProtobufDelete` executed successfully). -/
structure ModelLoopResult where
  outcome : Except String Unit
  acquired : Nat
  released : Nat
deriving DecidableEq

/-- The model readiness loop body, iteration `i`, with `fuel` remaining
iterations of budget; `none` means the budget was exhausted with the loop
still running (the source loop itself has no bound). -/
def modelLoopGo (s : Nat → ModelStatusIter) :
    Nat → Nat → Nat → Nat → Option ModelLoopResult
  | 0, _, _, _ => none
  | fuel + 1, i, acq, rel =>
      match (s i).get with
      | Except.error e =>
          some { outcome := Except.error
                   ("unable to get model status protobuf: " ++ e)
                 acquired := acq, released := rel }
      | Except.ok () =>
          match (s i).serialize with
          | Except.error e =>
              some { outcome := Except.error
                       ("unable to serialize model status protobuf: " ++ e)
                     acquired := acq + 1, released := rel }
          | Except.ok () =>
              match (s i).parse with
              | none =>
                  some { outcome := Except.error
                           "error: failed to parse model status"
                         acquired := acq + 1, released := rel }
              | some msg =>
                  match msg.model_status.lookup "simple" with
                  | none =>
                      some { outcome := Except.error
                               "unable to find status for model simple"
                             acquired := acq + 1, released := rel }
                  | some tbl =>
                      match tbl.version_status.lookup 1 with
                      | none =>
                          some { outcome := Except.error
                                   "unable to find version 1 status for model simple"
                                 acquired := acq + 1, released := rel }
                      | some vs =>
                          if vs.ready_state = ModelReadyState.MODEL_READY then
                            some { outcome := Except.ok ()
                                   acquired := acq + 1, released := rel }
                          else
                            match (s i).delete with
                            | Except.error e =>
                                some { outcome := Except.error
                                         ("deleting status protobuf: " ++ e)
                                       acquired := acq + 1, released := rel }
                            | Except.ok () =>
                                modelLoopGo s fuel (i + 1) (acq + 1) (rel + 1)

/-- The model readiness loop of `main`, run with an iteration budget. -/
def modelLoopRun (fuel : Nat) (s : Nat → ModelStatusIter) :
    Option ModelLoopResult :=
  modelLoopGo s fuel 0 0 0

/-- A status stream on which the model is forever loading and every engine
call succeeds: each poll parses to a table with model "simple", version 1,
state `MODEL_LOADING`. -/
def alwaysLoadingStream : Nat → ModelStatusIter := fun _ =>
  { get := Except.ok ()
    serialize := Except.ok ()
    parse := some { model_status :=
      [("simple", { version_status :=
        [(1, { ready_state := ModelReadyState.MODEL_LOADING })] })] }
    delete := Except.ok () }

/-- A status stream on which the model is ready at the very first poll. -/
def readyAtZeroStream : Nat → ModelStatusIter := fun _ =>
  { get := Except.ok ()
    serialize := Except.ok ()
    parse := some { model_status :=
      [("simple", { version_status :=
        [(1, { ready_state := ModelReadyState.MODEL_READY })] })] }
    delete := Except.ok () }

/-! ### The inference request header (`simple.cc` lines 258-273)

`main` builds an `InferRequestHeader` with id 123, batch size 1, inputs
INPUT0 and INPUT1 and outputs OUTPUT0 and OUTPUT1, in that order, and
serializes it with `SerializeToString` before handing the bytes to
`TRTSERVER_InferenceRequestProviderNew`. -/

/-- The fields of `InferRequestHeader` that `simple.cc` sets: correlation
id, batch size, and the ordered input and output names. -/
structure InferRequestHeader where
  id : Nat
  batch_size : Nat
  input : List String
  output : List String
deriving DecidableEq

/-- The request header constructed by `main` (`simple.cc` lines 258-270). -/
def requestHeader : InferRequestHeader :=
  { id := 123
    batch_size := 1
    input := ["INPUT0", "INPUT1"]
    output := ["OUTPUT0", "OUTPUT1"] }

/-- A token of the wire encoding of a request header. -/
inductive WireToken where
  | nat (n : Nat)
  | str (s : String)
deriving DecidableEq

/-- Modelled from the spec: the protobuf serialization of
`InferRequestHeader` (`SerializeToString` / `ParseFromArray` from the
generated `src/core/api.pb.h`, not under `src/`).  The spec allows any
binary encoding in which correlation id, batch size and the ordered input
and output names round-trip; we use a token stream with length-prefixed
name lists. -/
def serializeHeader (h : InferRequestHeader) : List WireToken :=
  WireToken.nat h.id :: WireToken.nat h.batch_size ::
    WireToken.nat h.input.length :: h.input.map WireToken.str ++
    (WireToken.nat h.output.length :: h.output.map WireToken.str)

/-- Decode `n` length-prefixed names from the token stream, returning the
names and the remaining stream. -/
def parseNames : Nat → List WireToken → Option (List String × List WireToken)
  | 0, ts => some ([], ts)
  | n + 1, WireToken.str s :: ts =>
      match parseNames n ts with
      | some (names, rest) => some (s :: names, rest)
      | none => none
  | _ + 1, _ => none

/-- Modelled from the spec: deserialization of the request header on the
consuming side (the engine parses the bytes produced by
`SerializeToString`); inverse of `serializeHeader`. -/
def parseHeader (ts : List WireToken) : Option InferRequestHeader :=
  match ts with
  | WireToken.nat id :: WireToken.nat bs :: WireToken.nat ni :: rest =>
      match parseNames ni rest with
      | some (inputs, WireToken.nat no :: rest2) =>
          match parseNames no rest2 with
          | some (outputs, []) =>
              some { id := id, batch_size := bs
                     input := inputs, output := outputs }
          | _ => none
      | _ => none
  | _ => none

/-- Decoding `l.length` names from `l.map WireToken.str ++ ts` recovers `l`
and leaves `ts`. -/
theorem parseNames_map_str (l : List String) (ts : List WireToken) :
    parseNames l.length (l.map WireToken.str ++ ts) = some (l, ts) := by
  induction l with
  | nil => rfl
  | cons s rest ih =>
      simp [parseNames, ih]

/-! ### The rest of `main` (`simple.cc` lines 117-421)

`main` is a straight-line sequence of engine calls, each wrapped in
`FAIL_IF_ERR` or checked with `FAIL`, around the two loops above and the
output checks.  Each fallible external call is modelled by a field of
`Env`; the process outcome is the exit status plus the diagnostic (if
any).  `FAIL_IF_ERR(X, MSG)` and `FAIL(MSG)` come from
`src/servers/common.h`. -/

/-- The input tensor data (`simple.cc` lines 284-291): `input0_data[i] = i`. -/
def input0_data : Nat → Int := fun i => (i : Int)

/-- The input tensor data (`simple.cc` lines 284-291): `input1_data[i] = 1`. -/
def input1_data : Nat → Int := fun _ => 1

/-- What `TRTSERVER_InferenceResponseOutputData` reports for one output:
the buffer contents viewed as 32-bit integers, the byte size, and the
memory type (`simple.cc` lines 350-357 and 372-378). -/
structure OutputView where
  content : Nat → Int
  byte_size : Nat
  memory_type : MemoryType

/-- Outcome of one checked step of `main`.  Modelled from the spec:
`FAIL(MSG)` and `FAIL_IF_ERR(X, MSG)` (from `src/servers/common.h`, not
under `src/`) print a diagnostic to the error stream and exit the process
with status 1; the spec fixes exit code 0 on full success and 1 on any
failure, with a human-readable diagnostic on the error stream. -/
inductive StepResult where
  | ok
  | fail (msg : String)
deriving DecidableEq

/-- `FAIL_IF_ERR(X, MSG)`: on an engine error the diagnostic is the message
followed by the error; otherwise the step is a no-op. -/
def stepOfErr (msg : String) : Except String Unit → StepResult
  | Except.ok () => StepResult.ok
  | Except.error e => StepResult.fail (msg ++ ": " ++ e)

/-- A `ParseFromArray` check (`simple.cc` lines 192-194 and 338-340):
`false` triggers `FAIL(msg)`. -/
def stepOfParse (msg : String) : Bool → StepResult
  | true => StepResult.ok
  | false => StepResult.fail msg

/-- Convert a loop outcome (which already carries its full diagnostic)
into a step. -/
def stepOfOutcome : Except String Unit → StepResult
  | Except.ok () => StepResult.ok
  | Except.error m => StepResult.fail m

/-- Exit status and error-stream diagnostic of a terminated process. -/
structure MainResult where
  exit : Nat
  errMsg : Option String
deriving DecidableEq

/-- `FAIL`/`Usage`: exit status 1 with a diagnostic. -/
def failWith (msg : String) : MainResult :=
  { exit := 1, errMsg := some msg }

/-- The `return 0` at `simple.cc` line 420. -/
def okExit : MainResult := { exit := 0, errMsg := none }

/-- Run a list of checked steps; the first failing step exits the process,
otherwise control continues with `k`. -/
def runSteps : List StepResult → Option MainResult → Option MainResult
  | [], k => k
  | StepResult.ok :: rest, k => runSteps rest k
  | StepResult.fail m :: _, _ => some (failWith m)

/-- The element-check loop (`simple.cc` lines 398-410) over the remaining
`n` indices starting at `i`: fail on the first incorrect sum, then on the
first incorrect difference. -/
def elemCheckGo (c0 c1 : Nat → Int) : Nat → Nat → StepResult
  | 0, _ => StepResult.ok
  | n + 1, i =>
      if input0_data i + input1_data i ≠ c0 i then
        StepResult.fail "incorrect sum in OUTPUT0"
      else if input0_data i - input1_data i ≠ c1 i then
        StepResult.fail "incorrect difference in OUTPUT1"
      else elemCheckGo c0 c1 n (i + 1)

/-- The element-check loop of `main`: indices 0 through 15. -/
def elemChecks (c0 c1 : Nat → Int) : StepResult :=
  elemCheckGo c0 c1 16 0

/-- The output-check region (`simple.cc` lines 350-410): fetch OUTPUT0,
check its byte size then memory type, fetch OUTPUT1, check likewise, then
run the element loop. -/
def outputChecks (e0 e1 : Except String OutputView) : StepResult :=
  match e0 with
  | Except.error e => StepResult.fail ("getting output0 result: " ++ e)
  | Except.ok o0 =>
      if o0.byte_size ≠ 64 then
        StepResult.fail "unexpected output0 byte-size"
      else if o0.memory_type ≠ MemoryType.CPU then
        StepResult.fail "unexpected output0 memory type"
      else
        match e1 with
        | Except.error e => StepResult.fail ("getting output1 result: " ++ e)
        | Except.ok o1 =>
            if o1.byte_size ≠ 64 then
              StepResult.fail "unexpected output1 byte-size"
            else if o1.memory_type ≠ MemoryType.CPU then
              StepResult.fail "unexpected output1 memory type"
            else elemChecks o0.content o1.content

/-- Outcomes of every fallible external interaction `main` performs, in
program order (`simple.cc` lines 117-421). -/
structure Env where
  unknownOpt : Bool
  repoPath : String
  serverOptionsNew : Except String Unit
  setRepoPath : Except String Unit
  serverNew : Except String Unit
  serverOptionsDelete : Except String Unit
  live : Nat → Except String Bool
  ready : Nat → Except String Bool
  serverStatus : Except String Unit
  serverStatusSerialize : Except String Unit
  serverStatusParse : Bool
  serverStatusDelete : Except String Unit
  modelIter : Nat → ModelStatusIter
  allocatorNew : Except String Unit
  providerNew : Except String Unit
  setInput0 : Except String Unit
  setInput1 : Except String Unit
  inferAsync : Except String Unit
  providerDelete : Except String Unit
  responseStatus : Except String Unit
  responseHeaderGet : Except String Unit
  responseHeaderSerialize : Except String Unit
  responseHeaderParse : Bool
  responseProtobufDelete : Except String Unit
  output0 : Except String OutputView
  output1 : Except String OutputView
  responseDelete : Except String Unit
  allocatorDelete : Except String Unit

/-- The checked steps between argument parsing and the model readiness
loop (`simple.cc` lines 139-202), with the `FAIL_IF_ERR` messages of the
source. -/
def preModelSteps (env : Env) : List StepResult :=
  [stepOfErr "creating server options" env.serverOptionsNew,
   stepOfErr "setting model repository path" env.setRepoPath,
   stepOfErr "creating server" env.serverNew,
   stepOfErr "deleting server options" env.serverOptionsDelete,
   stepOfOutcome (healthLoopRun env.live env.ready),
   stepOfErr "unable to get server status protobuf" env.serverStatus,
   stepOfErr "unable to serialize server status protobuf"
     env.serverStatusSerialize,
   stepOfParse "error: failed to parse server status" env.serverStatusParse,
   stepOfErr "deleting status protobuf" env.serverStatusDelete]

/-- The checked steps after the model readiness loop (`simple.cc` lines
245-418): allocator and provider creation, input binding, submission,
response consumption, output checks, and teardown. -/
def postModelSteps (env : Env) : List StepResult :=
  [stepOfErr "creating response allocator" env.allocatorNew,
   stepOfErr "creating inference request provider" env.providerNew,
   stepOfErr "assigning INPUT0 data" env.setInput0,
   stepOfErr "assigning INPUT1 data" env.setInput1,
   stepOfErr "running inference" env.inferAsync,
   stepOfErr "deleting inference request provider" env.providerDelete,
   stepOfErr "response" env.responseStatus,
   stepOfErr "unable to get response header protobuf" env.responseHeaderGet,
   stepOfErr "unable to serialize response header protobuf"
     env.responseHeaderSerialize,
   stepOfParse "error: failed to parse response header"
     env.responseHeaderParse,
   stepOfErr "deleting response protobuf" env.responseProtobufDelete,
   outputChecks env.output0 env.output1,
   stepOfErr "deleting inference response" env.responseDelete,
   stepOfErr "deleting response allocator" env.allocatorDelete]

/-- `main` (`simple.cc` lines 117-421): argument handling (`Usage` exits 1,
lines 43-54 and 124-137), the pre-model steps, the model readiness loop
(run with an iteration budget; `none` = the unbounded source loop is still
running), the post-model steps, and `return 0`. -/
def mainRun (fuel : Nat) (env : Env) : Option MainResult :=
  if env.unknownOpt then some (failWith "Usage: simple [options]")
  else if env.repoPath = "" then
    some (failWith "-r must be used to specify model repository path")
  else
    runSteps (preModelSteps env)
      (match modelLoopRun fuel env.modelIter with
       | none => none
       | some lr =>
           runSteps (stepOfOutcome lr.outcome :: postModelSteps env)
             (some okExit))

/-- Every step of `main` succeeds: arguments are well-formed, every checked
step up to the model loop succeeds, the model loop exits with the model
ready within the budget, and every checked step after it succeeds. -/
def EnvOk (fuel : Nat) (env : Env) : Prop :=
  env.unknownOpt = false ∧ env.repoPath ≠ "" ∧
  (∀ s ∈ preModelSteps env, s = StepResult.ok) ∧
  (∃ lr, modelLoopRun fuel env.modelIter = some lr ∧
    lr.outcome = Except.ok ()) ∧
  (∀ s ∈ postModelSteps env, s = StepResult.ok)

/-- The output buffers delivered in `env` are exactly what the canonical
scenario expects: both present, 64 bytes, on CPU memory, with
`OUTPUT0[i] = INPUT0[i] + INPUT1[i]` and `OUTPUT1[i] = INPUT0[i] - INPUT1[i]`
for every `i < 16`. -/
def outputsGood (e0 e1 : Except String OutputView) : Prop :=
  match e0, e1 with
  | Except.ok o0, Except.ok o1 =>
      o0.byte_size = 64 ∧ o0.memory_type = MemoryType.CPU ∧
      o1.byte_size = 64 ∧ o1.memory_type = MemoryType.CPU ∧
      ∀ i < 16, input0_data i + input1_data i = o0.content i ∧
        input0_data i - input1_data i = o1.content i
  | _, _ => False

/-! ### Helper lemmas -/

/-- A step produced by `stepOfErr` is ok exactly when the engine call
succeeded. -/
theorem stepOfErr_ok_iff (msg : String) (e : Except String Unit) :
    stepOfErr msg e = StepResult.ok ↔ e = Except.ok () := by
  cases e with
  | ok u => cases u; simp [stepOfErr]
  | error m => simp [stepOfErr]

/-- A step produced by `stepOfOutcome` is ok exactly when the outcome is
ok. -/
theorem stepOfOutcome_ok_iff (e : Except String Unit) :
    stepOfOutcome e = StepResult.ok ↔ e = Except.ok () := by
  cases e with
  | ok u => cases u; simp [stepOfOutcome]
  | error m => simp [stepOfOutcome]

/-- If all steps are ok, `runSteps` just runs the continuation. -/
theorem runSteps_allOk (l : List StepResult) (k : Option MainResult)
    (h : ∀ s ∈ l, s = StepResult.ok) : runSteps l k = k := by
  induction l with
  | nil => rfl
  | cons s rest ih =>
      have hs := h s (List.mem_cons_self s rest)
      subst hs
      exact ih fun t ht => h t (List.mem_cons_of_mem _ ht)

/-- Case analysis on a terminated `runSteps`: either every step was ok and
the continuation produced the result, or some step failed and the result
is a failure exit. -/
theorem runSteps_some (l : List StepResult) (k : Option MainResult)
    (r : MainResult) (h : runSteps l k = some r) :
    ((∀ s ∈ l, s = StepResult.ok) ∧ k = some r) ∨ ∃ m, r = failWith m := by
  induction l with
  | nil => exact Or.inl ⟨by simp, h⟩
  | cons s rest ih =>
      cases s with
      | ok =>
          rcases ih h with ⟨hall, hk⟩ | hf
          · exact Or.inl ⟨by simpa using hall, hk⟩
          · exact Or.inr hf
      | fail m =>
          refine Or.inr ⟨m, ?_⟩
          have : some (failWith m) = some r := h
          exact (Option.some_inj.mp this).symm

/-- The element loop succeeds on indices `i, …, i+n-1` exactly when sums
and differences match there. -/
theorem elemCheckGo_ok_iff (c0 c1 : Nat → Int) :
    ∀ (n i : Nat), (elemCheckGo c0 c1 n i = StepResult.ok ↔
      ∀ j < n, input0_data (i + j) + input1_data (i + j) = c0 (i + j) ∧
        input0_data (i + j) - input1_data (i + j) = c1 (i + j)) := by
  intro n
  induction n with
  | zero => intro i; simp [elemCheckGo]
  | succ n ih =>
      intro i
      by_cases h0 : input0_data i + input1_data i = c0 i
      · by_cases h1 : input0_data i - input1_data i = c1 i
        · rw [show elemCheckGo c0 c1 (n + 1) i = elemCheckGo c0 c1 n (i + 1) by
            simp [elemCheckGo, h0, h1]]
          rw [ih (i + 1)]
          constructor
          · intro h j hj
            cases j with
            | zero => simpa using ⟨h0, h1⟩
            | succ j =>
                have : i + (j + 1) = (i + 1) + j := by omega
                rw [this]
                exact h j (by omega)
          · intro h j hj
            have : (i + 1) + j = i + (j + 1) := by omega
            rw [this]
            exact h (j + 1) (by omega)
        · rw [show elemCheckGo c0 c1 (n + 1) i =
              StepResult.fail "incorrect difference in OUTPUT1" by
            simp [elemCheckGo, h0, h1]]
          simp only [iff_false, show StepResult.fail
            "incorrect difference in OUTPUT1" ≠ StepResult.ok from by simp]
          rw [false_iff]
          intro h
          exact h1 (by simpa using (h 0 (by omega)).2)
      · rw [show elemCheckGo c0 c1 (n + 1) i =
            StepResult.fail "incorrect sum in OUTPUT0" by
          simp [elemCheckGo, h0]]
        simp only [iff_false, show StepResult.fail
          "incorrect sum in OUTPUT0" ≠ StepResult.ok from by simp]
        rw [false_iff]
        intro h
        exact h0 (by simpa using (h 0 (by omega)).1)

/-- The output-check region succeeds exactly when the delivered outputs
match the canonical expectations. -/
theorem outputChecks_ok_iff (e0 e1 : Except String OutputView) :
    outputChecks e0 e1 = StepResult.ok ↔ outputsGood e0 e1 := by
  cases e0 with
  | error m => simp [outputChecks, outputsGood]
  | ok o0 =>
      cases e1 with
      | error m =>
          by_cases hb0 : o0.byte_size = 64 <;>
            by_cases hm0 : o0.memory_type = MemoryType.CPU <;>
              simp [outputChecks, outputsGood, hb0, hm0]
      | ok o1 =>
          by_cases hb0 : o0.byte_size = 64
          · by_cases hm0 : o0.memory_type = MemoryType.CPU
            · by_cases hb1 : o1.byte_size = 64
              · by_cases hm1 : o1.memory_type = MemoryType.CPU
                · rw [show outputChecks (Except.ok o0) (Except.ok o1) =
                      elemChecks o0.content o1.content by
                    simp [outputChecks, hb0, hm0, hb1, hm1]]
                  unfold elemChecks
                  rw [elemCheckGo_ok_iff]
                  simp [outputsGood, hb0, hm0, hb1, hm1]
                · simp [outputChecks, outputsGood, hb0, hm0, hb1, hm1]
              · simp [outputChecks, outputsGood, hb0, hm0, hb1]
            · simp [outputChecks, outputsGood, hb0, hm0]
          · simp [outputChecks, outputsGood, hb0]

/-- Any terminated run of `main` produced either the success exit or a
failure exit carrying a diagnostic. -/
theorem mainRun_shape (fuel : Nat) (env : Env) (r : MainResult)
    (h : mainRun fuel env = some r) :
    r = okExit ∨ ∃ m, r = failWith m := by
  unfold mainRun at h
  by_cases hu : env.unknownOpt = true
  · rw [if_pos hu] at h
    exact Or.inr ⟨_, (Option.some_inj.mp h).symm⟩
  · rw [if_neg hu] at h
    by_cases hr : env.repoPath = ""
    · rw [if_pos hr] at h
      exact Or.inr ⟨_, (Option.some_inj.mp h).symm⟩
    · rw [if_neg hr] at h
      rcases runSteps_some _ _ _ h with ⟨_, hk⟩ | hf
      · cases hml : modelLoopRun fuel env.modelIter with
        | none => rw [hml] at hk; exact absurd hk (by simp)
        | some lr =>
            rw [hml] at hk
            rcases runSteps_some _ _ _ hk with ⟨_, hok⟩ | hf2
            · exact Or.inl (Option.some_inj.mp hok).symm
            · exact Or.inr hf2
      · exact Or.inr hf

/-- A terminated run of `main` exits with status 0 exactly when every step
succeeded. -/
theorem mainRun_exit0_iff (fuel : Nat) (env : Env) (r : MainResult)
    (h : mainRun fuel env = some r) :
    r.exit = 0 ↔ EnvOk fuel env := by
  constructor
  · intro h0
    unfold mainRun at h
    by_cases hu : env.unknownOpt = true
    · rw [if_pos hu] at h
      rw [← Option.some_inj.mp h] at h0
      simp [failWith] at h0
    · rw [if_neg hu] at h
      by_cases hr : env.repoPath = ""
      · rw [if_pos hr] at h
        rw [← Option.some_inj.mp h] at h0
        simp [failWith] at h0
      · rw [if_neg hr] at h
        rcases runSteps_some _ _ _ h with ⟨hpre, hk⟩ | ⟨m, rfl⟩
        · cases hml : modelLoopRun fuel env.modelIter with
          | none => rw [hml] at hk; exact absurd hk (by simp)
          | some lr =>
              rw [hml] at hk
              rcases runSteps_some _ _ _ hk with ⟨hall, _⟩ | ⟨m, rfl⟩
              · have hout : stepOfOutcome lr.outcome = StepResult.ok :=
                  hall _ (List.mem_cons_self _ _)
                have hpost : ∀ s ∈ postModelSteps env, s = StepResult.ok :=
                  fun s hs => hall s (List.mem_cons_of_mem _ hs)
                exact ⟨Bool.not_eq_true _ ▸ hu, hr, hpre,
                  ⟨lr, hml, (stepOfOutcome_ok_iff _).mp hout⟩, hpost⟩
              · simp [failWith] at h0
        · simp [failWith] at h0
  · rintro ⟨hu, hr, hpre, ⟨lr, hml, hout⟩, hpost⟩
    unfold mainRun at h
    rw [if_neg (by simp [hu]), if_neg hr, runSteps_allOk _ _ hpre, hml] at h
    have hall : ∀ s ∈ stepOfOutcome lr.outcome :: postModelSteps env,
        s = StepResult.ok := by
      intro s hs
      rcases List.mem_cons.mp hs with rfl | hs2
      · rw [hout]; rfl
      · exact hpost s hs2
    have h2 : some okExit = some r := by
      rw [← runSteps_allOk (stepOfOutcome lr.outcome :: postModelSteps env)
        (some okExit) hall]
      exact h
    rw [← Option.some_inj.mp h2]
    rfl

/-- If the model never leaves the loading state and no engine call fails,
the model readiness loop is still running after any number of
iterations. -/
theorem modelLoopGo_alwaysLoading (fuel : Nat) :
    ∀ (i acq rel : Nat),
      modelLoopGo alwaysLoadingStream fuel i acq rel = none := by
  induction fuel with
  | zero => intro i acq rel; rfl
  | succ fuel ih =>
      intro i acq rel
      show modelLoopGo alwaysLoadingStream fuel (i + 1) (acq + 1) (rel + 1)
        = none
      exact ih (i + 1) (acq + 1) (rel + 1)

/-- Invariant of the model readiness loop: it is entered with as many
protobufs acquired as released, and when it exits via the `MODEL_READY`
break, one more protobuf has been acquired than released — the final
status protobuf is never deleted. -/
theorem modelLoopGo_ready_leak (s : Nat → ModelStatusIter) :
    ∀ (fuel i c : Nat) (r : ModelLoopResult),
      modelLoopGo s fuel i c c = some r → r.outcome = Except.ok () →
      r.acquired = r.released + 1 := by
  intro fuel
  induction fuel with
  | zero => intro i c r h; exact absurd h (by simp [modelLoopGo])
  | succ fuel ih =>
      intro i c r h hok
      unfold modelLoopGo at h
      repeat' split at h
      all_goals
        first
        | exact ih _ _ r h hok
        | (rw [← Option.some_inj.mp h] <;> rfl)
        | (rw [← Option.some_inj.mp h] at hok; simp at hok)

/-- If the server never reports live-and-ready but every health query
succeeds, the health loop fails with the fatal diagnostic once its
attempt budget is exhausted. -/
theorem healthLoopGo_neverHealthy (live ready : Nat → Except String Bool)
    (h : ∀ n, ∃ l r, live n = Except.ok l ∧ ready n = Except.ok r ∧
      (l && r) = false) :
    ∀ (fuel i : Nat), healthLoopGo live ready fuel i =
      Except.error "failed to find healthy inference server" := by
  intro fuel
  induction fuel with
  | zero =>
      intro i
      obtain ⟨l, r, hl, hr, hlr⟩ := h i
      have hp : healthPoll live ready i = Except.ok false := by
        simp [healthPoll, hl, hr, hlr]
      simp [healthLoopGo, hp]
  | succ fuel ih =>
      intro i
      obtain ⟨l, r, hl, hr, hlr⟩ := h i
      have hp : healthPoll live ready i = Except.ok false := by
        simp [healthPoll, hl, hr, hlr]
      simp [healthLoopGo, hp, ih (i + 1)]

/-- The 64-byte CPU output buffer carrying the expected sums. -/
def goodOutput0 : OutputView :=
  { content := fun i => (i : Int) + 1
    byte_size := 64
    memory_type := MemoryType.CPU }

/-- The 64-byte CPU output buffer carrying the expected differences. -/
def goodOutput1 : OutputView :=
  { content := fun i => (i : Int) - 1
    byte_size := 64
    memory_type := MemoryType.CPU }

/-- An environment in which every external interaction succeeds: the
canonical fully-successful run of `main`. -/
def goodEnv : Env :=
  { unknownOpt := false
    repoPath := "/models"
    serverOptionsNew := Except.ok ()
    setRepoPath := Except.ok ()
    serverNew := Except.ok ()
    serverOptionsDelete := Except.ok ()
    live := fun _ => Except.ok true
    ready := fun _ => Except.ok true
    serverStatus := Except.ok ()
    serverStatusSerialize := Except.ok ()
    serverStatusParse := true
    serverStatusDelete := Except.ok ()
    modelIter := readyAtZeroStream
    allocatorNew := Except.ok ()
    providerNew := Except.ok ()
    setInput0 := Except.ok ()
    setInput1 := Except.ok ()
    inferAsync := Except.ok ()
    providerDelete := Except.ok ()
    responseStatus := Except.ok ()
    responseHeaderGet := Except.ok ()
    responseHeaderSerialize := Except.ok ()
    responseHeaderParse := true
    responseProtobufDelete := Except.ok ()
    output0 := Except.ok goodOutput0
    output1 := Except.ok goodOutput1
    responseDelete := Except.ok ()
    allocatorDelete := Except.ok () }

/-- Serializing then deserializing recovers any request header. -/
theorem parseHeader_serializeHeader (h : InferRequestHeader) :
    parseHeader (serializeHeader h) = some h := by
  cases h with
  | mk id bs inp out =>
      have h2 : parseNames out.length (List.map WireToken.str out) =
          some (out, []) := by simpa using parseNames_map_str out []
      simp [serializeHeader, parseHeader, parseNames_map_str, h2]

/-! ### Claim theorems -/

/-- C1 counterexample: on a status stream where every engine call succeeds
but the model stays forever in the loading state, the model readiness loop
of `simple.cc` (lines 204-243) never terminates, for any claimed attempt
bound — so it does not terminate after a bounded number of attempts with a
fatal startup error. -/
theorem modelReadyLoop_unbounded_cex :
    ¬ ∃ (B : Nat) (r : ModelLoopResult),
        modelLoopRun B alwaysLoadingStream = some r := by
  rintro ⟨B, r, h⟩
  unfold modelLoopRun at h
  rw [modelLoopGo_alwaysLoading B 0 0 0] at h
  exact absurd h (by simp)

/-- C1 (amended): the server health loop (lines 156-176) is bounded — if
the server never reports live-and-ready but every health query succeeds,
it exits fatally on the tenth attempt — whereas the model readiness loop
is unbounded: with the model forever loading it is still running after any
number of iterations. -/
theorem readinessLoops_amended (live ready : Nat → Except String Bool)
    (h : ∀ n, ∃ l r, live n = Except.ok l ∧ ready n = Except.ok r ∧
      (l && r) = false) :
    healthLoopRun live ready =
      Except.error "failed to find healthy inference server" ∧
    ∀ B, modelLoopRun B alwaysLoadingStream = none := by
  refine ⟨healthLoopGo_neverHealthy live ready h 9 0, fun B => ?_⟩
  exact modelLoopGo_alwaysLoading B 0 0 0

/-- C1 witness: a server that is live but never ready exhausts the health
loop, and the model loop on the forever-loading stream is still running
after 5 iterations. -/
theorem readinessLoops_amended_witness :
    healthLoopRun (fun _ => Except.ok true) (fun _ => Except.ok false) =
      Except.error "failed to find healthy inference server" ∧
    modelLoopRun 5 alwaysLoadingStream = none :=
  ⟨(readinessLoops_amended (fun _ => Except.ok true)
      (fun _ => Except.ok false)
      (fun _ => ⟨true, false, rfl, rfl, rfl⟩)).1,
   (readinessLoops_amended (fun _ => Except.ok true)
      (fun _ => Except.ok false)
      (fun _ => ⟨true, false, rfl, rfl, rfl⟩)).2 5⟩

/-- C2 counterexample: calling `ResponseAlloc` with the unsupported GPU
locality and `byte_size = 0` produces a non-null token (the zero-size
branch of lines 68-72 wins), so the claim does not hold for every
byte size. -/
theorem responseAlloc_gpu_zero_cex :
    (ResponseAlloc "OUTPUT0" 0 MemoryType.GPU).token = some "OUTPUT0" ∧
    (ResponseAlloc "OUTPUT0" 0 MemoryType.GPU).token ≠ none := by
  constructor
  · rfl
  · intro h
    exact absurd h (by simp [ResponseAlloc])

/-- C2 (amended): for an unsupported locality and nonzero byte size,
`ResponseAlloc` returns a null buffer, a null token and success; when the
byte size is zero, the zero-size branch applies regardless of locality and
returns a null buffer, success, and a non-null token holding the tensor
name. -/
theorem responseAlloc_unsupported_locality (name : String) (bs : Nat)
    (mt : MemoryType) (hmt : mt ≠ MemoryType.CPU) :
    (bs ≠ 0 → ResponseAlloc name bs mt =
      { buffer := none, token := none, err := none }) ∧
    (bs = 0 → ResponseAlloc name bs mt =
      { buffer := none, token := some name, err := none }) := by
  constructor
  · intro hbs
    simp [ResponseAlloc, hbs, hmt]
  · intro hbs
    subst hbs
    simp [ResponseAlloc]

/-- C2 witness: a 64-byte GPU allocation request is refused with null
buffer, null token and success. -/
theorem responseAlloc_unsupported_locality_witness :
    ResponseAlloc "OUTPUT0" 64 MemoryType.GPU =
      { buffer := none, token := none, err := none } :=
  (responseAlloc_unsupported_locality "OUTPUT0" 64 MemoryType.GPU
    (by simp)).1 (by simp)

/-- C3: for every tensor name and memory type, `ResponseAlloc` with
`byte_size = 0` returns success, a null buffer, performs no allocation
(no `malloc` is recorded), and still produces a valid non-null token
holding the tensor name. -/
theorem responseAlloc_zero_byte_size (name : String) (mt : MemoryType) :
    ResponseAlloc name 0 mt =
      { buffer := none, token := some name, err := none } := by
  simp [ResponseAlloc]

/-- C4: whenever a terminated run of `main` exits with status 0, the
delivered outputs are two 64-byte CPU buffers with
`OUTPUT0[i] = INPUT0[i] + INPUT1[i]` and `OUTPUT1[i] = INPUT0[i] - INPUT1[i]`
for all `i < 16` (with `INPUT0[i] = i`, `INPUT1[i] = 1`); and any size,
locality or element mismatch makes the run exit with status 1 instead. -/
theorem mainExit_outputs (fuel : Nat) (env : Env) (r : MainResult)
    (h : mainRun fuel env = some r) :
    (r.exit = 0 → outputsGood env.output0 env.output1) ∧
    (¬ outputsGood env.output0 env.output1 → r.exit = 1) := by
  constructor
  · intro h0
    have hok := (mainRun_exit0_iff fuel env r h).mp h0
    have hoc : outputChecks env.output0 env.output1 = StepResult.ok :=
      hok.2.2.2.2 _ (by simp [postModelSteps])
    exact (outputChecks_ok_iff _ _).mp hoc
  · intro hbad
    rcases mainRun_shape fuel env r h with rfl | ⟨m, rfl⟩
    · refine absurd ?_ hbad
      have hok := (mainRun_exit0_iff fuel env okExit h).mp rfl
      have hoc : outputChecks env.output0 env.output1 = StepResult.ok :=
        hok.2.2.2.2 _ (by simp [postModelSteps])
      exact (outputChecks_ok_iff _ _).mp hoc
    · rfl

/-- C4 witness: the canonical successful run exits 0 and its outputs are
the expected sums and differences. -/
theorem mainExit_outputs_witness :
    outputsGood goodEnv.output0 goodEnv.output1 :=
  (mainExit_outputs 1 goodEnv okExit (by rfl)).1 rfl

/-- C5: `InferComplete` resolves the promise with the response and then
frees the promise allocation, exactly once, inside the callback; `main`
never frees it; and the realized trace (allocate, take the future, resolve,
free, wait) is a valid lifetime — set exactly once before the free, no
double free, the wait observing the resolved value. -/
theorem inferComplete_promise_lifecycle :
    runPromise { allocated := false, resolved := false }
        programPromiseTrace =
      some { allocated := false, resolved := true } ∧
    inferCompleteOps.count PromiseOp.free = 1 ∧
    inferCompleteOps.indexOf PromiseOp.setValue <
      inferCompleteOps.indexOf PromiseOp.free ∧
    mainPromiseOps.count PromiseOp.free = 0 := by
  refine ⟨rfl, rfl, ?_, rfl⟩
  decide

/-- C6: for every buffer, byte size and memory type, `ResponseRelease`
with a null token substitutes the placeholder name, still frees the
buffer, and returns success. -/
theorem responseRelease_null_token (buf : Option Nat) (bs : Nat)
    (mt : MemoryType) :
    ResponseRelease buf none bs mt =
      { logged_name := "<unknown>", freed := true, err := none } := rfl

/-- C7: a terminated run of `main` exits with status 0 exactly when every
step succeeded (arguments, startup, both readiness loops, submission,
status and parse checks, output checks, teardown); every failing
terminated run exits with status 1 and carries a diagnostic on the error
stream. -/
theorem mainExit_code_spec (fuel : Nat) (env : Env) (r : MainResult)
    (h : mainRun fuel env = some r) :
    (r.exit = 0 ↔ EnvOk fuel env) ∧
    (r.exit ≠ 0 → r.exit = 1 ∧ r.errMsg ≠ none) := by
  refine ⟨mainRun_exit0_iff fuel env r h, fun hne => ?_⟩
  rcases mainRun_shape fuel env r h with rfl | ⟨m, rfl⟩
  · exact absurd rfl hne
  · exact ⟨rfl, by simp [failWith]⟩

/-- C7 witness: the canonical successful run satisfies every step
condition. -/
theorem mainExit_code_spec_witness : EnvOk 1 goodEnv :=
  ((mainExit_code_spec 1 goodEnv okExit (by rfl)).1).mp rfl

/-- C8: serializing the request header built by `main` (id 123, batch
size 1, inputs INPUT0, INPUT1 and outputs OUTPUT0, OUTPUT1 in order) and
deserializing the bytes yields the same names in the same order and the
same correlation id. -/
theorem requestHeader_serialization_roundtrip :
    parseHeader (serializeHeader requestHeader) = some requestHeader ∧
    requestHeader.id = 123 ∧ requestHeader.batch_size = 1 ∧
    requestHeader.input = ["INPUT0", "INPUT1"] ∧
    requestHeader.output = ["OUTPUT0", "OUTPUT1"] :=
  ⟨parseHeader_serializeHeader requestHeader, rfl, rfl, rfl, rfl⟩

/-- C9 counterexample: when the model is ready at the first poll, the
readiness loop exits having acquired one model-status protobuf and
released none — the `break` at line 235 runs before the
`TRTSERVER_ProtobufDelete` at lines 238-240, so the final protobuf is not
deleted before the loop is exited. -/
theorem modelLoop_protobuf_leak_cex :
    modelLoopRun 1 readyAtZeroStream =
      some { outcome := Except.ok (), acquired := 1, released := 0 } ∧
    (Option.map ModelLoopResult.released
        (modelLoopRun 1 readyAtZeroStream) ≠
      Option.map ModelLoopResult.acquired
        (modelLoopRun 1 readyAtZeroStream)) := by
  constructor
  · rfl
  · intro h
    rw [show modelLoopRun 1 readyAtZeroStream =
        some { outcome := Except.ok (), acquired := 1, released := 0 }
      from rfl] at h
    exact absurd h (by simp)

/-- C9 (amended): whenever the model readiness loop exits through the
`MODEL_READY` break, it has acquired exactly one more model-status
protobuf than it released: the protobufs of non-final iterations are
deleted, but the one obtained in the final iteration leaks. -/
theorem modelLoop_ready_exit_leaks (fuel : Nat)
    (s : Nat → ModelStatusIter) (r : ModelLoopResult)
    (h : modelLoopRun fuel s = some r)
    (hok : r.outcome = Except.ok ()) : r.acquired = r.released + 1 :=
  modelLoopGo_ready_leak s fuel 0 0 r h hok

/-- C9 witness: the immediately-ready run acquired 1 protobuf and released
0. -/
theorem modelLoop_ready_exit_leaks_witness :
    ({ outcome := Except.ok (), acquired := 1, released := 0 } :
        ModelLoopResult).acquired =
      ({ outcome := Except.ok (), acquired := 1, released := 0 } :
        ModelLoopResult).released + 1 :=
  modelLoop_ready_exit_leaks 1 readyAtZeroStream
    { outcome := Except.ok (), acquired := 1, released := 0 } rfl rfl

/-- C10: `ResponseAlloc` never pairs a non-null buffer with a null token —
when the returned buffer is non-null the token is the tensor name — and
both `ResponseAlloc` and `ResponseRelease` return success on every
input. -/
theorem responseAlloc_token_invariant (name : String) (bs : Nat)
    (mt : MemoryType) (buf : Option Nat) (tok : Option String) :
    ((ResponseAlloc name bs mt).buffer ≠ none →
      (ResponseAlloc name bs mt).token = some name) ∧
    (ResponseAlloc name bs mt).err = none ∧
    (ResponseRelease buf tok bs mt).err = none := by
  refine ⟨fun h => ?_, ?_, rfl⟩
  · by_cases hc : bs = 0 ∨ mt = MemoryType.CPU
    · simp [ResponseAlloc, hc]
    · refine absurd ?_ h
      simp [ResponseAlloc, hc]
  · by_cases hc : bs = 0 ∨ mt = MemoryType.CPU <;>
      simp [ResponseAlloc, hc]

/-- C10 witness: a successful 64-byte CPU allocation carries the tensor
name as its token, and both callbacks report success there; the refused
64-byte GPU allocation also reports success. -/
theorem responseAlloc_token_invariant_witness :
    ((ResponseAlloc "OUTPUT0" 64 MemoryType.CPU).token = some "OUTPUT0" ∧
      (ResponseAlloc "OUTPUT0" 64 MemoryType.CPU).err = none ∧
      (ResponseRelease (some 64) (some "OUTPUT0") 64
        MemoryType.CPU).err = none) ∧
    (ResponseAlloc "OUTPUT0" 64 MemoryType.GPU).err = none ∧
    (ResponseRelease none none 0 MemoryType.GPU).err = none :=
  ⟨⟨(responseAlloc_token_invariant "OUTPUT0" 64 MemoryType.CPU (some 64)
        (some "OUTPUT0")).1 (by simp [ResponseAlloc]),
    (responseAlloc_token_invariant "OUTPUT0" 64 MemoryType.CPU (some 64)
        (some "OUTPUT0")).2⟩,
   (responseAlloc_token_invariant "OUTPUT0" 64 MemoryType.GPU none
        none).2.1,
   (responseAlloc_token_invariant "OUTPUT0" 0 MemoryType.GPU none
        none).2.2⟩

end Simple
